import Mathlib

/-!
Verification development for the `l_api` scraper repository (src/app.py, src/app1.py).

The repository's core logic parses already-fetched HTML documents with
BeautifulSoup and extracts listing records and stream descriptors.  We embed
that logic shallowly: an HTML document is a `Node` tree (as produced by the
parser), and each scraping function is translated, line by line, into a pure
Lean function over such trees.  The outbound HTTP fetch (requests.get plus
error handling) sits in front of every scraper and is out of scope; each
embedded function takes the parsed document (`soup`) where the Python function
fetched it.

BeautifulSoup semantics used by the embedding:
  * `find`/`find_all` search the descendants of a tag in document (preorder)
    order, the tag itself excluded.
  * A keyword filter `class_="c"` matches a tag whose `class` attribute,
    split on whitespace, contains the token `c`; a multi-token filter
    `class_="a b"` also matches when the whole whitespace-joined class list
    equals the string (bs4 matches each value and then the joined value).
  * `id='x'` and `attrs={'type': t}` filters match on attribute equality;
    `href=True` matches mere presence of the attribute.
  * `tag.get(k)` is `none` when the attribute is absent; `tag[k]`/`has_attr`
    follow the attribute list; `tag.get("class", [])` is the class token list.
  * `get_text(strip=True)` joins the stripped non-empty text descendants;
    `get_text(separator=' ', strip=True)` joins them with a space; `.text`
    joins all text descendants unchanged.
  * A found `Tag` is truthy (`Tag.__bool__` is `True` in bs4 4.x), so
    `if tag:` is exactly an `Option.isSome` test on the `find` result.
  * Python string truthiness on an optional attribute value is "present and
    non-empty".
-/

namespace LApi

/-! ## Python string primitives (structural, kernel-computable) -/

/-- ASCII whitespace stripped by Python's `str.strip()`. -/
def isSpaceChar (c : Char) : Bool :=
  c = ' ' || c = '\t' || c = '\n' || c = '\r' || c = '\x0b' || c = '\x0c'

/-- `str.split(',')`: split on every comma, keeping empty segments. -/
def splitOnComma : List Char → List (List Char)
  | [] => [[]]
  | c :: rest =>
    if c = ',' then [] :: splitOnComma rest
    else
      match splitOnComma rest with
      | [] => [[c]]
      | seg :: segs => (c :: seg) :: segs

/-- Raw whitespace split (segments between whitespace runs, with empties). -/
def splitBySpace : List Char → List (List Char)
  | [] => [[]]
  | c :: rest =>
    if isSpaceChar c then [] :: splitBySpace rest
    else
      match splitBySpace rest with
      | [] => [[c]]
      | seg :: segs => (c :: seg) :: segs

/-- Python `str.strip()`. -/
def pyStrip (s : String) : String :=
  String.mk (((s.data.dropWhile isSpaceChar).reverse.dropWhile isSpaceChar).reverse)

/-- Python `str.split(',')`. -/
def pySplitComma (s : String) : List String :=
  (splitOnComma s.data).map String.mk

/-- Python `str.split()` (no argument): whitespace split, empties dropped.
This is also how the HTML parser tokenizes a `class` attribute value. -/
def pySplitWs (s : String) : List String :=
  ((splitBySpace s.data).map String.mk).filter (fun t => t ≠ "")

/-- Python `str.startswith(p)`. -/
def strStartsWith (s p : String) : Bool :=
  p.data.isPrefixOf s.data

/-- Truthiness of an optional Python string: present and non-empty. -/
def sTruthy : Option String → Bool
  | none => false
  | some s => s ≠ ""

/-! ## The DOM tree -/

mutual
/-- A parsed HTML node: an element with tag name, attribute list and children,
or a text node.  (`NodeList` instead of `List Node` keeps every recursive
function structural, hence kernel-computable.) -/
inductive Node where
  | elem (tag : String) (attrs : List (String × String)) (children : NodeList)
  | text (s : String)
inductive NodeList where
  | nil
  | cons (n : Node) (rest : NodeList)
end

/-- Build a `NodeList` from a `List Node` (for writing concrete documents). -/
def nl : List Node → NodeList
  | [] => NodeList.nil
  | n :: rest => NodeList.cons n (nl rest)

mutual
/-- A node together with all of its descendants, in document (preorder) order. -/
def Node.selfDesc : Node → List Node
  | .text s => [Node.text s]
  | .elem t a cs => Node.elem t a cs :: NodeList.desc cs

def NodeList.desc : NodeList → List Node
  | .nil => []
  | .cons n rest => n.selfDesc ++ NodeList.desc rest
end

/-- All proper descendants of a node, in document order (what `find`/`find_all`
iterate over). -/
def Node.descendants : Node → List Node
  | .text _ => []
  | .elem _ _ cs => NodeList.desc cs

mutual
/-- All text-node strings below (or at) a node, in document order
(BeautifulSoup's `strings`). -/
def Node.strings : Node → List String
  | .text s => [s]
  | .elem _ _ cs => NodeList.stringsOf cs

def NodeList.stringsOf : NodeList → List String
  | .nil => []
  | .cons n rest => n.strings ++ NodeList.stringsOf rest
end

/-- First value bound to an attribute name. -/
def attrsGet (attrs : List (String × String)) (name : String) : Option String :=
  (attrs.find? (fun p => p.1 = name)).map (fun p => p.2)

/-- `tag.get(name)` / guarded `tag[name]`. -/
def Node.attr : Node → String → Option String
  | .elem _ attrs _, name => attrsGet attrs name
  | .text _, _ => none

/-- `tag.get("class", [])`: the class attribute as a token list. -/
def Node.classes (n : Node) : List String :=
  match n.attr "class" with
  | some s => pySplitWs s
  | none => []

/-- bs4 `class_=arg` matching: `arg` equals one class token, or equals the
whole whitespace-joined class list. -/
def matchesClassArg (arg : String) (n : Node) : Bool :=
  n.classes.contains arg || " ".intercalate n.classes == arg

/-- Tag-name filter. -/
def isTag (t : String) (n : Node) : Bool :=
  match n with
  | .elem tg _ _ => tg == t
  | .text _ => false

/-- `find_all(pred)`: every matching descendant, in document order. -/
def findAll (p : Node → Bool) (n : Node) : List Node :=
  n.descendants.filter p

/-- `find(pred)`: the first matching descendant, if any. -/
def findFirst (p : Node → Bool) (n : Node) : Option Node :=
  (findAll p n).head?

/-- `soup.find('div', class_=c)`. -/
def isDivWithClass (c : String) (n : Node) : Bool :=
  isTag "div" n && matchesClassArg c n

/-- `soup.find('a', class_=c)`. -/
def isAnchorWithClass (c : String) (n : Node) : Bool :=
  isTag "a" n && matchesClassArg c n

/-- `find('picture', class_=c)`. -/
def isPictureWithClass (c : String) (n : Node) : Bool :=
  isTag "picture" n && matchesClassArg c n

/-- `find('source', attrs={'type': t})` / `find('source', type=t)`. -/
def isSourceWithType (t : String) (n : Node) : Bool :=
  isTag "source" n && n.attr "type" == some t

/-- `soup.find('div', id='galleries', class_='js-gallery-list')`
(the Video-kind listing container, identical in both files). -/
def isGalleryListContainer (n : Node) : Bool :=
  isTag "div" n && n.attr "id" == some "galleries" && matchesClassArg "js-gallery-list" n

/-- `soup.find('div', id='galleries', class_='js-pornstar-list')`. -/
def isPornstarListContainer (n : Node) : Bool :=
  isTag "div" n && n.attr "id" == some "galleries" && matchesClassArg "js-pornstar-list" n

/-- `.text` / `get_text()`: all text descendants joined. -/
def getText (n : Node) : String :=
  String.join n.strings

/-- `get_text(strip=True)`: stripped non-empty text descendants joined. -/
def getTextStrip (n : Node) : String :=
  String.join ((n.strings.map pyStrip).filter (fun s => s ≠ ""))

/-- `get_text(separator=sep, strip=True)`. -/
def getTextSepStrip (sep : String) (n : Node) : String :=
  sep.intercalate ((n.strings.map pyStrip).filter (fun s => s ≠ ""))

/-! ## Shared constants and URL resolution -/

/-- `BASE_URL` (identical in app.py and app1.py). -/
def BASE_URL : String := "https://hqporn.xxx"

/-- The link-resolution expression used by `scrape_hqporn_fresh_page` and the
other app.py section scrapers (app.py:308 etc.) and by
`scrape_generic_video_list_page` (app1.py:195):
`f"{BASE_URL}{href}" if href and href.startswith('/') else href`. -/
def resolveHref (href : Option String) : Option String :=
  match href with
  | none => none
  | some h => if h ≠ "" ∧ strStartsWith h "/" = true then some (BASE_URL ++ h) else some h

/-- The link-resolution expression used by `scrape_generic_page_videos`
(app.py:235 and app.py:248):
`href if href.startswith("http") else (f"{BASE_URL}{href}" if href else "")`. -/
def resolveGenericHref (href : String) : String :=
  if strStartsWith href "http" = true then href
  else if href ≠ "" then BASE_URL ++ href
  else ""

/-! ## Record shapes -/

/-- app.py `ScrapedTag` / the fresh-page tag dicts / app1 `Tag` as constructed
(both fields are always non-empty strings when a tag is appended). -/
structure ScrapedTag where
  link : String
  name : String
deriving Repr, DecidableEq

/-- app1 `ImageUrls`, and the `image_urls` dict of the app.py section
scrapers (an absent dict key is modelled as `none`). -/
structure ImageUrls where
  img_src : Option String
  jpeg : Option String
  webp : Option String
deriving Repr, DecidableEq

/-- app.py `ScrapedImageUrls` (pydantic, all plain strings). -/
structure ScrapedImageUrls where
  img_src : String
  jpeg : String
  webp : String
deriving Repr, DecidableEq

/-- app1 `VideoData`, and the per-item dict of `scrape_hqporn_fresh_page`. -/
structure VideoData where
  duration : Option String
  gallery_id : Option String
  image_urls : ImageUrls
  link : Option String
  preview_video_url : Option String
  tags : List ScrapedTag
  thumb_id : Option String
  title : Option String
  title_attribute : Option String
deriving Repr, DecidableEq

/-- app.py `ScrapedVideoData` (pydantic, all plain strings). -/
structure ScrapedVideoData where
  duration : String
  gallery_id : String
  image_urls : ScrapedImageUrls
  link : String
  preview_video_url : String
  tags : List ScrapedTag
  thumb_id : String
  title : String
  title_attribute : String
deriving Repr, DecidableEq

/-- The per-item dict of `scrape_hqporn_pornstars_page` (`name` is always
assigned a string once the stats anchor is found). -/
structure PornstarData where
  link : Option String
  pornstar_id : Option String
  name : String
  image_urls : ImageUrls
deriving Repr, DecidableEq

/-- One entry of `source_tags`: app.py's `{"src","type","size"}` dicts and
app1's `StreamSource` (the `src` put in is always a string). -/
structure StreamSource where
  src : String
  type : Option String
  size : Option String
deriving Repr, DecidableEq

/-- The result dict of app.py `scrape_video_page_for_streams`
(`stream_data_template`). -/
structure StreamPageData where
  video_page_url : String
  main_video_src : Option String
  source_tags : List StreamSource
  poster_image : Option String
  sprite_previews : List String
  error : Option String
  note : Option String
deriving Repr, DecidableEq

/-- app1 `StreamData` (no `error` field; failures raise instead). -/
structure StreamData where
  video_page_url : String
  main_video_src : Option String
  source_tags : List StreamSource
  poster_image : Option String
  sprite_previews : List String
  note : Option String
deriving Repr, DecidableEq

/-! ## Stream-page extraction -/

/-- app.py:677: `soup.find('video', id='video_html5_api') or
soup.find('div', class_='b-video-player') and
soup.find('div', class_='b-video-player').find('video')`, combined with the
`if not video_tag` test that follows. -/
def findPlayerVideo (soup : Node) : Option Node :=
  match findFirst (fun n => isTag "video" n && n.attr "id" == some "video_html5_api") soup with
  | some v => some v
  | none =>
    match findFirst (isDivWithClass "b-video-player") soup with
    | some player => findFirst (isTag "video") player
    | none => none

/-- app1.py:544-549: the same lookup, written as two statements. -/
def findPlayerVideo1 (soup : Node) : Option Node :=
  match findFirst (fun n => isTag "video" n && n.attr "id" == some "video_html5_api") soup with
  | some v => some v
  | none =>
    match findFirst (isDivWithClass "b-video-player") soup with
    | some player_div => findFirst (isTag "video") player_div
    | none => none

/-- The `<source>` descendants of the player video element, if one is found
(app.py:684 / app1.py:568). -/
def playerSourceEls (soup : Node) : List Node :=
  match findPlayerVideo soup with
  | some video_tag => findAll (isTag "source") video_tag
  | none => []

/-- Python `set.add` on a set modelled as a duplicate-free list. -/
def setAdd (l : List String) (s : String) : List String :=
  if s ∈ l then l else l ++ [s]

/-- `type`/`size` extraction for one `<source>` element in app.py:
`source_el.get('type')` and `source_el.get('data-size', source_el.get('size'))`. -/
def sourceMetaA (el : Node) : Option String × Option String :=
  (el.attr "type",
   match el.attr "data-size" with
   | some v => some v
   | none => el.attr "size")

/-- `type`/`size` extraction for one `<source>` element in app1:
`source_tag.get('type')` and `source_tag.get('size')`. -/
def sourceMeta1 (el : Node) : Option String × Option String :=
  (el.attr "type", el.attr "size")

/-- One iteration of the `<source>`-collection loops (app.py:704-712,
app1.py:568-578): `extra` is the additional URL guard (app.py refuses
`blob:` URLs; app1 has no such guard) and `meta` the per-file `type`/`size`
extraction.  The accumulator carries the collected entries and the
processed-URL set. -/
def streamFoldStep (extra : String → Bool) (meta : Node → Option String × Option String)
    (acc : List StreamSource × List String) (el : Node) : List StreamSource × List String :=
  match el.attr "src" with
  | some u =>
    if u ≠ "" ∧ extra u = true ∧ u ∉ acc.2 then
      (acc.1 ++ [{ src := u, type := (meta el).1, size := (meta el).2 }], setAdd acc.2 u)
    else acc
  | none => acc

/-- app.py guard: `not src_url.startswith('blob:')`. -/
def notBlob (u : String) : Bool :=
  !(strStartsWith u "blob:")

/-- app.py:682-683: `main_video_src` is set only when the video element has a
non-empty, non-`blob:` `src` attribute. -/
def mainVideoSrcA (video_tag : Node) : Option String :=
  match video_tag.attr "src" with
  | some s => if s ≠ "" ∧ notBlob s = true then some s else none
  | none => none

/-- app.py:691-695: whether some `<source>` child repeats `main_video_src`
(the Python loop compares `source_el.get('src')` with the optional value). -/
def mainAlsoInSourceTags (video_tag : Node) : Bool :=
  (findAll (isTag "source") video_tag).any
    (fun source_el => source_el.attr "src" == mainVideoSrcA video_tag)

/-- app.py:685-702: the state of `(temp_sources, processed_src_urls)` right
before the `<source>` loop: the direct `src` is pre-inserted into the
processed set, and appended as a source entry only when no `<source>` child
repeats it. -/
def initSourcesA (video_tag : Node) : List StreamSource × List String :=
  match mainVideoSrcA video_tag with
  | some s =>
    if mainAlsoInSourceTags video_tag = false then
      ([{ src := s, type := some ((video_tag.attr "type").getD "video/mp4"), size := none }],
       setAdd [s] s)
    else ([], [s])
  | none => ([], [])

/-- app.py:704-713: the final `source_tags` list. -/
def sourceTagsA (video_tag : Node) : List StreamSource :=
  ((findAll (isTag "source") video_tag).foldl (streamFoldStep notBlob sourceMetaA)
    (initSourcesA video_tag)).1

/-- app.py:715-716 / app1.py:591-593 (identical in both files): the
`data-preview` attribute split on commas, stripped, empties dropped. -/
def spritePreviewsOf (video_tag : Node) : List String :=
  match video_tag.attr "data-preview" with
  | some v => ((pySplitComma v).map pyStrip).filter (fun s => s ≠ "")
  | none => []

/-- app.py `scrape_video_page_for_streams`, parse part (app.py:675-727).
The fetch and its `error=f"Failed to fetch page..."` branch are out of scope.
The `note` fallback block (app.py:717-726) is guarded by
`"error" not in stream_data`, which is always False because the template dict
always contains the `"error"` key, so `note` is never set. -/
def scrape_video_page_for_streams (video_page_url : String) (soup : Node) : StreamPageData :=
  match findPlayerVideo soup with
  | none =>
    { video_page_url := video_page_url, main_video_src := none, source_tags := [],
      poster_image := none, sprite_previews := [],
      error := some "Video player tag not found.", note := none }
  | some video_tag =>
    { video_page_url := video_page_url,
      main_video_src := mainVideoSrcA video_tag,
      source_tags := sourceTagsA video_tag,
      poster_image := video_tag.attr "poster",
      sprite_previews := spritePreviewsOf video_tag,
      error := none,
      note := none }

/-- app1.py:564-566: the initial `found_sources` set (the direct `src`, when
truthy). -/
def foundSources1 (video_tag : Node) : List String :=
  match video_tag.attr "src" with
  | some s => if s ≠ "" then [s] else []
  | none => []

/-- app1.py:568-578: the final `source_tags` list. -/
def sourceTags1 (video_tag : Node) : List StreamSource :=
  ((findAll (isTag "source") video_tag).foldl (streamFoldStep (fun _ => true) sourceMeta1)
    ([], foundSources1 video_tag)).1

/-- app1.py `scrape_video_stream_data`, parse part (app1.py:539-595).  The
pre-fetch URL validation (400) and the fetch itself are out of scope; the
`HTTPException(404, "Video player tag not found...")` raised when no player
element exists is modelled as `Except.error`. -/
def scrape_video_stream_data (video_page_url : String) (soup : Node) :
    Except String StreamData :=
  match findPlayerVideo1 soup with
  | none =>
    Except.error "Video player tag not found on the page. Content may not be a video page or layout has changed."
  | some video_tag =>
    Except.ok
      { video_page_url := video_page_url,
        main_video_src := video_tag.attr "src",
        source_tags := sourceTags1 video_tag,
        poster_image := video_tag.attr "poster",
        sprite_previews := spritePreviewsOf video_tag,
        note :=
          if sTruthy (video_tag.attr "src") = false ∧ sourceTags1 video_tag = [] then
            some "No direct video <src> or <source> tags were found in the initial HTML parse. The video content might be loaded via JavaScript variables or a different method not covered by this basic scraper."
          else none }

/-! ## Listing extraction -/

/-- The image-urls block shared verbatim by the app.py section scrapers
(e.g. app.py:316-324) and by app1 `extract_image_urls` (app1.py:127-138),
applied to an already-located `<picture>` element:
`source type webp/jpeg srcset` (or None), and the nested `<img>`'s
`get('data-src', get('src'))`. -/
def pictureImageUrls (picture_tag : Node) : ImageUrls :=
  let webp : Option String :=
    match findFirst (isSourceWithType "image/webp") picture_tag with
    | some source_webp => source_webp.attr "srcset"
    | none => none
  let jpeg : Option String :=
    match findFirst (isSourceWithType "image/jpeg") picture_tag with
    | some source_jpeg => source_jpeg.attr "srcset"
    | none => none
  let img_src : Option String :=
    match findFirst (isTag "img") picture_tag with
    | some img_tag =>
      (match img_tag.attr "data-src" with
       | some v => some v
       | none => img_tag.attr "src")
    | none => none
  { img_src := img_src, jpeg := jpeg, webp := webp }

/-- Tag extraction for one detail-anchor in `scrape_hqporn_fresh_page`
(app.py:332-337): name from `.text.strip()`, link resolved with the
'/'-prefix rule, dropped when either is empty. -/
def freshTagOf (tag_a : Node) : Option ScrapedTag :=
  let tag_name := pyStrip (getText tag_a)
  match tag_a.attr "href" with
  | some tag_link_relative =>
    if tag_name ≠ "" ∧ tag_link_relative ≠ "" then
      some { name := tag_name,
             link := if strStartsWith tag_link_relative "/" = true then
                       BASE_URL ++ tag_link_relative
                     else tag_link_relative }
    else none
  | none => none

/-- One loop iteration of `scrape_hqporn_fresh_page` (app.py:303-339):
the item is skipped (`continue`) exactly when the `js-gallery-link` anchor
is missing; there is no random-thumb filter and no field-emptiness gate. -/
def freshItem (item_soup : Node) : Option VideoData :=
  match findFirst (isAnchorWithClass "js-gallery-link") item_soup with
  | none => none
  | some link_tag =>
    let href := link_tag.attr "href"
    let link := resolveHref href
    let gallery_id := link_tag.attr "data-gallery-id"
    let thumb_id := link_tag.attr "data-thumb-id"
    let preview_video_url := link_tag.attr "data-preview"
    let title_attribute := link_tag.attr "title"
    let title : Option String :=
      match findFirst (isDivWithClass "b-thumb-item__title") item_soup with
      | some title_div => some (getTextSepStrip " " title_div)
      | none => title_attribute
    let image_urls : ImageUrls :=
      match findFirst (isPictureWithClass "js-gallery-img") item_soup with
      | some picture_tag => pictureImageUrls picture_tag
      | none => { img_src := none, jpeg := none, webp := none }
    let duration : Option String :=
      match findFirst (isDivWithClass "b-thumb-item__duration") item_soup with
      | some duration_div =>
        (match findFirst (isTag "span") duration_div with
         | some duration_span => some (pyStrip (getText duration_span))
         | none => none)
      | none => none
    let tags : List ScrapedTag :=
      match findFirst (isDivWithClass "b-thumb-item__detail") item_soup with
      | some detail_div => (findAll (isTag "a") detail_div).filterMap freshTagOf
      | none => []
    some { duration := duration, gallery_id := gallery_id, image_urls := image_urls,
           link := link, preview_video_url := preview_video_url, tags := tags,
           thumb_id := thumb_id, title := title, title_attribute := title_attribute }

/-- app.py `scrape_hqporn_fresh_page`, parse part (app.py:293-340). -/
def scrape_hqporn_fresh_page (soup : Node) : List VideoData :=
  match findFirst isGalleryListContainer soup with
  | none => []
  | some gallery_list_container =>
    (findAll (isDivWithClass "b-thumb-item") gallery_list_container).filterMap freshItem

/-- app.py:504: `if data.get('name') and data.get('link'): scraped_data.append(data)`
applied to the built record. -/
def gatePornstarData (data : PornstarData) : Option PornstarData :=
  if data.name ≠ "" ∧ sTruthy data.link = true then some data else none

/-- One loop iteration of `scrape_hqporn_pornstars_page` (app.py:483-504):
skipped when the stats anchor is missing; emitted only when both name and
link are truthy. -/
def pornstarItem (item_soup : Node) : Option PornstarData :=
  match findFirst (isAnchorWithClass "js-pornstar-stats") item_soup with
  | none => none
  | some link_tag =>
    let link := resolveHref (link_tag.attr "href")
    let pornstar_id := link_tag.attr "data-pornstar-id"
    let name0 := pyStrip ((link_tag.attr "title").getD "")
    let name : String :=
      match findFirst (isDivWithClass "b-thumb-item__title") item_soup with
      | some title_div =>
        if getTextStrip title_div ≠ "" ∧ name0 = "" then getTextStrip title_div else name0
      | none => name0
    let image_urls : ImageUrls :=
      match findFirst (isTag "picture") item_soup with
      | some picture_tag => pictureImageUrls picture_tag
      | none => { img_src := none, jpeg := none, webp := none }
    gatePornstarData
      { link := link, pornstar_id := pornstar_id, name := name, image_urls := image_urls }

/-- app.py `scrape_hqporn_pornstars_page`, parse part (app.py:473-505). -/
def scrape_hqporn_pornstars_page (soup : Node) : List PornstarData :=
  match findFirst isPornstarListContainer soup with
  | none => []
  | some pornstar_list_container =>
    (findAll (isDivWithClass "b-thumb-item--star") pornstar_list_container).filterMap pornstarItem

/-- Tag extraction for one detail-anchor in `scrape_generic_page_videos`
(app.py:245-250): `get("href", "")`, `get_text(strip=True)`, link via the
'http'-prefix rule, kept only when name and resolved link are non-empty. -/
def genericTagOf (cat_link_elem : Node) : Option ScrapedTag :=
  let cat_href := (cat_link_elem.attr "href").getD ""
  let cat_name := getTextStrip cat_link_elem
  let full_cat_link := resolveGenericHref cat_href
  if cat_name ≠ "" ∧ full_cat_link ≠ "" then
    some { link := full_cat_link, name := cat_name }
  else none

/-- The image extraction of `scrape_generic_page_videos` (app.py:197-225),
returning `(img_src, jpeg, webp)` as plain (possibly empty) strings. -/
def genericImageTriple (item : Node) : String × String × String :=
  let img_elem := findFirst (isTag "img") item
  let first : String × String × String :=
    match findFirst (isPictureWithClass "js-gallery-img") item with
    | some picture_tag =>
      let webp : String :=
        match findFirst (isSourceWithType "image/webp") picture_tag with
        | some source_webp_tag => (source_webp_tag.attr "srcset").getD ""
        | none => ""
      let jpeg : String :=
        match findFirst (isSourceWithType "image/jpeg") picture_tag with
        | some source_jpeg_tag => (source_jpeg_tag.attr "srcset").getD ""
        | none => ""
      let img_src : String :=
        match findFirst (isTag "img") picture_tag with
        | some img_tag_in_picture =>
          (match img_tag_in_picture.attr "data-src" with
           | some v => v
           | none => (img_tag_in_picture.attr "src").getD "")
        | none => ""
      (img_src, jpeg, webp)
    | none =>
      match img_elem with
      | some ie =>
        (match ie.attr "src" with
         | some v => (v, v, "")
         | none => ("", "", ""))
      | none => ("", "", "")
  let img_src0 := first.1
  let jpeg0 := first.2.1
  let webp0 := first.2.2
  if jpeg0 = "" ∧ webp0 = "" ∧ img_elem.isSome then
    let img_src_from_fastapi : String :=
      match img_elem with
      | some ie => (ie.attr "src").getD ""
      | none => ""
    let jpeg_from_fastapi : String :=
      match findFirst (isSourceWithType "image/jpeg") item with
      | some jpeg_source => (jpeg_source.attr "srcset").getD img_src_from_fastapi
      | none => img_src_from_fastapi
    let webp_from_fastapi : String :=
      match findFirst (isSourceWithType "image/webp") item with
      | some webp_source => (webp_source.attr "srcset").getD ""
      | none => ""
    (if img_src0 = "" then img_src_from_fastapi else img_src0,
     if jpeg0 = "" then jpeg_from_fastapi else jpeg0,
     if webp0 = "" then webp_from_fastapi else webp0)
  else (img_src0, jpeg0, webp0)

/-- One loop iteration of `scrape_generic_page_videos` (app.py:175-268):
random-thumb items are skipped; every other item is appended (no validity
gate). -/
def genericItem (item : Node) : Option ScrapedVideoData :=
  if "random-thumb" ∈ item.classes then none
  else
    let title : String :=
      match findFirst (isDivWithClass "b-thumb-item__title js-gallery-title") item with
      | some title_elem => getTextStrip title_elem
      | none => "Unknown"
    let link_elem : Option Node :=
      match findFirst (isAnchorWithClass "js-gallery-stats js-gallery-link") item with
      | some a => some a
      | none => findFirst (fun n => isTag "a" n && (n.attr "href").isSome) item
    let title_attribute : String :=
      match link_elem with
      | some le =>
        (match le.attr "title" with
         | some t => if t ≠ "" then pyStrip t else title
         | none => title)
      | none => title
    let duration : String :=
      match findFirst (isDivWithClass "b-thumb-item__duration") item with
      | some duration_elem =>
        (match findFirst (isTag "span") duration_elem with
         | some sp => getTextStrip sp
         | none => "N/A")
      | none => "N/A"
    let triple := genericImageTriple item
    let fields : String × String × String × String :=
      match link_elem with
      | some le =>
        (resolveGenericHref ((le.attr "href").getD ""),
         (le.attr "data-gallery-id").getD "Unknown",
         (le.attr "data-preview").getD "",
         (le.attr "data-thumb-id").getD "Unknown")
      | none => ("", "Unknown", "", "Unknown")
    let tags : List ScrapedTag :=
      match findFirst (isDivWithClass "b-thumb-item__detail") item with
      | some categories_elem => (findAll (isTag "a") categories_elem).filterMap genericTagOf
      | none => []
    some { duration := duration,
           gallery_id := fields.2.1,
           image_urls := { img_src := triple.1, jpeg := triple.2.1, webp := triple.2.2 },
           link := fields.1,
           preview_video_url := fields.2.2.1,
           tags := tags,
           thumb_id := fields.2.2.2,
           title := title,
           title_attribute := title_attribute }

/-- app.py `scrape_generic_page_videos`, parse part (app.py:160-270).
Items are every `div` matching the three-token class filter
`"b-thumb-item js-thumb-item js-thumb"`. -/
def scrape_generic_page_videos (soup : Node) : List ScrapedVideoData :=
  (findAll (isDivWithClass "b-thumb-item js-thumb-item js-thumb") soup).filterMap genericItem

/-- app1 `extract_image_urls` (app1.py:120-140): the `js-gallery-img`
picture, falling back to any picture; all fields absent when neither exists. -/
def extract_image_urls (item_soup : Node) : ImageUrls :=
  let picture_tag : Option Node :=
    match findFirst (isPictureWithClass "js-gallery-img") item_soup with
    | some p => some p
    | none => findFirst (isTag "picture") item_soup
  match picture_tag with
  | some p => pictureImageUrls p
  | none => { img_src := none, jpeg := none, webp := none }

/-- Tag extraction for one detail-anchor in `scrape_generic_video_list_page`
(app1.py:212-218): kept only when `href` and stripped text are non-empty;
link resolved with the '/'-prefix rule. -/
def app1TagOf (link_a : Node) : Option ScrapedTag :=
  match link_a.attr "href" with
  | some h =>
    let nm := getTextStrip link_a
    if h ≠ "" ∧ nm ≠ "" then
      some { link := if strStartsWith h "/" = true then BASE_URL ++ h else h, name := nm }
    else none
  | none => none

/-- app1.py:221-233: `if link or title:` append the built record, else skip. -/
def gateVideoData (video : VideoData) : Option VideoData :=
  if sTruthy video.link = true ∨ sTruthy video.title = true then some video else none

/-- One loop iteration of `scrape_generic_video_list_page` (app1.py:172-235):
random-thumb items are skipped; after field extraction the item is emitted
iff `link or title` is truthy. -/
def genericListItem (item : Node) : Option VideoData :=
  if "random-thumb" ∈ item.classes then none
  else
    let title0 : Option String :=
      match findFirst (isDivWithClass "b-thumb-item__title") item with
      | some title_elem => some (getTextStrip title_elem)
      | none => none
    let duration : Option String :=
      match findFirst (isDivWithClass "b-thumb-item__duration") item with
      | some duration_elem =>
        (match findFirst (isTag "span") duration_elem with
         | some duration_span => some (getTextStrip duration_span)
         | none => none)
      | none => none
    let image_urls_data := extract_image_urls item
    let link_elem := findFirst (isAnchorWithClass "js-gallery-link") item
    let link : Option String :=
      match link_elem with
      | some le => resolveHref (le.attr "href")
      | none => none
    let gallery_id := link_elem.bind (fun le => le.attr "data-gallery-id")
    let thumb_id := link_elem.bind (fun le => le.attr "data-thumb-id")
    let preview_video_url := link_elem.bind (fun le => le.attr "data-preview")
    let title_attribute := link_elem.bind (fun le => le.attr "title")
    let title : Option String := if sTruthy title0 = true then title0 else title_attribute
    let tags : List ScrapedTag :=
      match findFirst (isDivWithClass "b-thumb-item__detail") item with
      | some categories_elem => (findAll (isTag "a") categories_elem).filterMap app1TagOf
      | none => []
    gateVideoData
      { duration := duration, gallery_id := gallery_id, image_urls := image_urls_data,
        link := link, preview_video_url := preview_video_url, tags := tags,
        thumb_id := thumb_id, title := title, title_attribute := title_attribute }

/-- app1 `scrape_generic_video_list_page`, parse part (app1.py:156-238). -/
def scrape_generic_video_list_page (soup : Node) : List VideoData :=
  match findFirst isGalleryListContainer soup with
  | none => []
  | some gallery_list_container =>
    (findAll (isDivWithClass "b-thumb-item") gallery_list_container).filterMap genericListItem

/-! ## Spec-side definitions (for refinement comparison only) -/

/-- The UrlResolver contract exactly as the spec words it (§4.3 and claim C3):
absent or empty input resolves to absent; a '/'-prefixed input to
`origin ++ input`; anything else is returned unchanged. -/
def resolveSpec (href : Option String) (origin : String) : Option String :=
  match href with
  | none => none
  | some s =>
    if s = "" then none
    else if strStartsWith s "/" = true then some (origin ++ s)
    else some s

/-- Sprite-preview splitting exactly as the spec words it (§4.2 step 5 and
claim C9): split on commas, trim each segment, drop empty segments, keep
order. -/
def spritePreviewSpec (v : String) : List String :=
  ((pySplitComma v).map pyStrip).filter (fun s => s ≠ "")

/-! ## Concrete documents used by witnesses and counterexamples -/

/-- A video page whose player element carries a direct `src` and no
`<source>` children. -/
def c1doc : Node :=
  Node.elem "[document]" [] (nl [
    Node.elem "video" [("id", "video_html5_api"), ("src", "https://cdn/x.mp4")] (nl [])])

/-- A video page whose player `src` is duplicated by one `<source>` child and
accompanied by a second, distinct `<source>`. -/
def c1wdoc : Node :=
  Node.elem "[document]" [] (nl [
    Node.elem "video" [("id", "video_html5_api"), ("src", "x")] (nl [
      Node.elem "source" [("src", "x"), ("type", "video/mp4")] (nl []),
      Node.elem "source" [("src", "y"), ("type", "video/mp4")] (nl [])])])

/-- The app1 stream record extracted from `c1wdoc`. -/
def c1data : StreamData :=
  { video_page_url := "u", main_video_src := some "x",
    source_tags := [{ src := "y", type := some "video/mp4", size := none }],
    poster_image := none, sprite_previews := [], note := none }

/-- A page with a player container but no `<video>` element inside. -/
def c2doc : Node :=
  Node.elem "html" [] (nl [
    Node.elem "div" [("class", "b-video-player")] (nl [Node.text "loading"])])

/-- A generic listing page whose item anchor has an `href` that is neither
absolute nor '/'-prefixed. -/
def c3doc : Node :=
  Node.elem "[document]" [] (nl [
    Node.elem "div" [("class", "b-thumb-item js-thumb-item js-thumb")] (nl [
      Node.elem "a" [("class", "js-gallery-stats js-gallery-link"), ("href", "video.html")] (nl [])])])

/-- A page with a `div#galleries` that lacks the `js-gallery-list` marker:
no recognized Video-kind container. -/
def c4doc : Node :=
  Node.elem "html" [] (nl [
    Node.elem "div" [("id", "galleries")] (nl [Node.text "interstitial"])])

/-- A fresh-page item whose gallery anchor has neither `href` nor `title`,
and which has no title element. -/
def c5doc : Node :=
  Node.elem "[document]" [] (nl [
    Node.elem "div" [("id", "galleries"), ("class", "js-gallery-list")] (nl [
      Node.elem "div" [("class", "b-thumb-item")] (nl [
        Node.elem "a" [("class", "js-gallery-link")] (nl [])])])])

/-- A valid Video item for the app1 validity gate. -/
def c5witem : Node :=
  Node.elem "div" [("class", "b-thumb-item")] (nl [
    Node.elem "a" [("class", "js-gallery-link"), ("href", "/v/a.html")] (nl [])])

/-- The record `genericListItem` extracts from `c5witem`. -/
def c5wvideo : VideoData :=
  { duration := none, gallery_id := none,
    image_urls := { img_src := none, jpeg := none, webp := none },
    link := some "https://hqporn.xxx/v/a.html", preview_video_url := none,
    tags := [], thumb_id := none, title := none, title_attribute := none }

/-- A valid pornstar item for the app.py pornstar validity gate. -/
def c5wstaritem : Node :=
  Node.elem "div" [("class", "b-thumb-item--star")] (nl [
    Node.elem "a" [("class", "js-pornstar-stats"), ("href", "/star/jane/"), ("title", "Jane")] (nl [])])

/-- The record `pornstarItem` extracts from `c5wstaritem`. -/
def c5wstar : PornstarData :=
  { link := some "https://hqporn.xxx/star/jane/", pornstar_id := none, name := "Jane",
    image_urls := { img_src := none, jpeg := none, webp := none } }

/-- The random/ad-marked item inside `c6doc`. -/
def c6item : Node :=
  Node.elem "div" [("class", "b-thumb-item random-thumb")] (nl [
    Node.elem "a" [("class", "js-gallery-link"), ("href", "/v/x.html"), ("title", "Ad")] (nl [])])

/-- A fresh page whose only item carries the random/ad marker. -/
def c6doc : Node :=
  Node.elem "[document]" [] (nl [
    Node.elem "div" [("id", "galleries"), ("class", "js-gallery-list")] (nl [c6item])])

/-- An ad-marked item shaped for the two extractors that do filter it. -/
def c6witem : Node :=
  Node.elem "div" [("class", "b-thumb-item js-thumb-item js-thumb random-thumb")] (nl [
    Node.elem "a" [("class", "js-gallery-stats js-gallery-link"), ("href", "/v/x.html")] (nl [])])

/-- A video page with two distinct `<source>` children and no direct `src`. -/
def c7wdoc : Node :=
  Node.elem "[document]" [] (nl [
    Node.elem "video" [("id", "video_html5_api")] (nl [
      Node.elem "source" [("src", "a")] (nl []),
      Node.elem "source" [("src", "b")] (nl [])])])

/-- The app1 stream record extracted from `c7wdoc`. -/
def c7data : StreamData :=
  { video_page_url := "u", main_video_src := none,
    source_tags := [{ src := "a", type := none, size := none },
                    { src := "b", type := none, size := none }],
    poster_image := none, sprite_previews := [], note := none }

/-- A generic listing item with no `<picture>` and no `<img>` at all. -/
def c8doc : Node :=
  Node.elem "[document]" [] (nl [
    Node.elem "div" [("class", "b-thumb-item js-thumb-item js-thumb")] (nl [
      Node.elem "a" [("class", "js-gallery-stats js-gallery-link"), ("href", "/v/y.html"), ("title", "Clip")] (nl [])])])

/-- An item with neither `<picture>` nor `<img>` descendants. -/
def c8witem : Node :=
  Node.elem "div" [("class", "b-thumb-item")] (nl [
    Node.elem "span" [] (nl [Node.text "t"])])

/-- The player element of `c9doc`, carrying a sprite-preview attribute. -/
def c9video : Node :=
  Node.elem "video" [("id", "video_html5_api"), ("data-preview", "a, b,,c ")] (nl [])

/-- A video page whose player has a comma-separated `data-preview` value. -/
def c9doc : Node :=
  Node.elem "[document]" [] (nl [c9video])

/-- The app1 stream record extracted from `c9doc`. -/
def c9data : StreamData :=
  { video_page_url := "u", main_video_src := none, source_tags := [],
    poster_image := none,
    sprite_previews := ["a", "b", "c"],
    note := some "No direct video <src> or <source> tags were found in the initial HTML parse. The video content might be loaded via JavaScript variables or a different method not covered by this basic scraper." }

/-- A video page mixing a direct non-blob `src`, a `blob:` source and an
ordinary source. -/
def c10doc : Node :=
  Node.elem "[document]" [] (nl [
    Node.elem "video" [("id", "video_html5_api"), ("src", "https://ok.mp4")] (nl [
      Node.elem "source" [("src", "blob:deadbeef")] (nl []),
      Node.elem "source" [("src", "https://b.mp4")] (nl [])])])

/-! ## Helper lemmas -/

/-- The two files locate the player element with the same two-step lookup. -/
theorem findPlayerVideo1_eq : findPlayerVideo1 = findPlayerVideo := rfl

/-- `find` monotonicity: if no descendant satisfies `p`, none satisfies a
stronger predicate `q`. -/
theorem findFirst_none_of_imp {p q : Node → Bool}
    (himp : ∀ m, q m = true → p m = true) (n : Node)
    (hp : findFirst p n = none) : findFirst q n = none := by
  unfold findFirst findAll at hp ⊢
  rw [List.head?_eq_none_iff] at hp ⊢
  rw [List.filter_eq_nil_iff] at hp ⊢
  intro a ha hq
  exact hp a ha (himp a hq)

theorem mem_setAdd_self (l : List String) (s : String) : s ∈ setAdd l s := by
  unfold setAdd
  split
  · assumption
  · simp

theorem mem_setAdd_of_mem {l : List String} {a : String} (s : String) (h : a ∈ l) :
    a ∈ setAdd l s := by
  unfold setAdd
  split
  · exact h
  · exact List.mem_append_left _ h

/-- Each step of the `<source>`-collection loop either leaves the accumulator
unchanged or appends one fresh entry and records its URL. -/
theorem streamFoldStep_cases (extra : String → Bool)
    (meta : Node → Option String × Option String)
    (ts : List StreamSource) (proc : List String) (el : Node) :
    streamFoldStep extra meta (ts, proc) el = (ts, proc) ∨
    ∃ u, el.attr "src" = some u ∧ u ≠ "" ∧ extra u = true ∧ u ∉ proc ∧
      streamFoldStep extra meta (ts, proc) el =
        (ts ++ [{ src := u, type := (meta el).1, size := (meta el).2 }], setAdd proc u) := by
  cases h : el.attr "src" with
  | none => left; simp [streamFoldStep, h]
  | some u =>
    by_cases hc : u ≠ "" ∧ extra u = true ∧ u ∉ proc
    · right
      exact ⟨u, rfl, hc.1, hc.2.1, hc.2.2, by simp only [streamFoldStep, h]; rw [if_pos hc]⟩
    · left
      simp only [streamFoldStep, h]
      rw [if_neg hc]

/-- Every entry the loop ever appends satisfies any property implied by the
loop's own guard. -/
theorem streamFold_closure (extra : String → Bool)
    (meta : Node → Option String × Option String) (P : StreamSource → Prop)
    (hP : ∀ el u, u ≠ "" → extra u = true →
        P { src := u, type := (meta el).1, size := (meta el).2 }) :
    ∀ (els : List Node) (ts : List StreamSource) (proc : List String),
      (∀ t ∈ ts, P t) →
      ∀ t ∈ (els.foldl (streamFoldStep extra meta) (ts, proc)).1, P t := by
  intro els
  induction els with
  | nil => intro ts proc h0; simpa using h0
  | cons el rest ih =>
    intro ts proc h0
    rw [List.foldl_cons]
    rcases streamFoldStep_cases extra meta ts proc el with heq | ⟨u, _, hu1, hu2, _, heq⟩
    · rw [heq]; exact ih ts proc h0
    · rw [heq]
      apply ih
      intro t ht
      rcases List.mem_append.mp ht with h | h
      · exact h0 t h
      · rw [List.mem_singleton.mp h]; exact hP el u hu1 hu2

/-- The loop keeps collected URLs inside the processed set and never collects
the same URL twice. -/
theorem streamFold_nodup (extra : String → Bool)
    (meta : Node → Option String × Option String) :
    ∀ (els : List Node) (ts : List StreamSource) (proc : List String),
      (∀ t ∈ ts, t.src ∈ proc) → (ts.map StreamSource.src).Nodup →
      ((els.foldl (streamFoldStep extra meta) (ts, proc)).1.map StreamSource.src).Nodup := by
  intro els
  induction els with
  | nil => intro ts proc _ h2; simpa using h2
  | cons el rest ih =>
    intro ts proc h1 h2
    rw [List.foldl_cons]
    rcases streamFoldStep_cases extra meta ts proc el with heq | ⟨u, _, _, _, hnotin, heq⟩
    · rw [heq]; exact ih ts proc h1 h2
    · rw [heq]
      apply ih
      · intro t ht
        rcases List.mem_append.mp ht with h | h
        · exact mem_setAdd_of_mem u (h1 t h)
        · rw [List.mem_singleton.mp h]; exact mem_setAdd_self proc u
      · rw [List.map_append]
        refine List.nodup_append.mpr ⟨h2, by simp, ?_⟩
        intro a ha hb
        simp only [List.map_cons, List.map_nil, List.mem_singleton] at hb
        rcases List.mem_map.mp ha with ⟨t, htmem, hsrc⟩
        exact hnotin (hb ▸ hsrc ▸ h1 t htmem)

/-- A URL already in the processed set is collected by the loop iff it was
already among the previously collected entries. -/
theorem streamFold_mem_iff (extra : String → Bool)
    (meta : Node → Option String × Option String) (u : String) :
    ∀ (els : List Node) (ts : List StreamSource) (proc : List String), u ∈ proc →
      ((∃ t ∈ (els.foldl (streamFoldStep extra meta) (ts, proc)).1, t.src = u) ↔
        ∃ t ∈ ts, t.src = u) := by
  intro els
  induction els with
  | nil => intro ts proc _; simp
  | cons el rest ih =>
    intro ts proc hu
    rw [List.foldl_cons]
    rcases streamFoldStep_cases extra meta ts proc el with heq | ⟨u', _, _, _, hnotin, heq⟩
    · rw [heq]; exact ih ts proc hu
    · rw [heq]
      rw [ih _ _ (mem_setAdd_of_mem u' hu)]
      constructor
      · rintro ⟨t, ht, hsrc⟩
        rcases List.mem_append.mp ht with h | h
        · exact ⟨t, h, hsrc⟩
        · exfalso
          rw [List.mem_singleton.mp h] at hsrc
          have huu : u' = u := hsrc
          exact hnotin (huu ▸ hu)
      · rintro ⟨t, ht, hsrc⟩
        exact ⟨t, List.mem_append_left _ ht, hsrc⟩

/-- Characterization of the Flask stream scraper when no player is found. -/
theorem scrape_streams_none (purl : String) (soup : Node)
    (hv : findPlayerVideo soup = none) :
    scrape_video_page_for_streams purl soup =
      { video_page_url := purl, main_video_src := none, source_tags := [],
        poster_image := none, sprite_previews := [],
        error := some "Video player tag not found.", note := none } := by
  unfold scrape_video_page_for_streams
  rw [hv]

/-- Characterization of the Flask stream scraper on a found player element. -/
theorem scrape_streams_some (purl : String) (soup video_tag : Node)
    (hv : findPlayerVideo soup = some video_tag) :
    scrape_video_page_for_streams purl soup =
      { video_page_url := purl,
        main_video_src := mainVideoSrcA video_tag,
        source_tags := sourceTagsA video_tag,
        poster_image := video_tag.attr "poster",
        sprite_previews := spritePreviewsOf video_tag,
        error := none, note := none } := by
  unfold scrape_video_page_for_streams
  rw [hv]

/-- Characterization of the FastAPI stream scraper when no player is found. -/
theorem scrape_stream1_none (purl : String) (soup : Node)
    (hv : findPlayerVideo1 soup = none) :
    scrape_video_stream_data purl soup =
      Except.error "Video player tag not found on the page. Content may not be a video page or layout has changed." := by
  unfold scrape_video_stream_data
  rw [hv]

/-- Characterization of the FastAPI stream scraper on a found player element. -/
theorem scrape_stream1_some (purl : String) (soup video_tag : Node)
    (hv : findPlayerVideo1 soup = some video_tag) :
    scrape_video_stream_data purl soup = Except.ok
      { video_page_url := purl,
        main_video_src := video_tag.attr "src",
        source_tags := sourceTags1 video_tag,
        poster_image := video_tag.attr "poster",
        sprite_previews := spritePreviewsOf video_tag,
        note :=
          if sTruthy (video_tag.attr "src") = false ∧ sourceTags1 video_tag = [] then
            some "No direct video <src> or <source> tags were found in the initial HTML parse. The video content might be loaded via JavaScript variables or a different method not covered by this basic scraper."
          else none } := by
  unfold scrape_video_stream_data
  rw [hv]

/-- `main_video_src` in app.py is only ever a non-empty, non-blob URL. -/
theorem mainVideoSrcA_spec (video_tag : Node) (s : String)
    (h : mainVideoSrcA video_tag = some s) :
    s ≠ "" ∧ strStartsWith s "blob:" = false := by
  unfold mainVideoSrcA at h
  split at h
  · split at h
    · rename_i hc
      injection h with h
      subst h
      refine ⟨hc.1, ?_⟩
      have hb := hc.2
      unfold notBlob at hb
      simpa using hb
    · cases h
  · cases h

/-- The three possible shapes of the pre-loop accumulator in app.py. -/
theorem initSourcesA_cases (video_tag : Node) :
    (initSourcesA video_tag = ([], []) ∧ mainVideoSrcA video_tag = none) ∨
    (∃ s, mainVideoSrcA video_tag = some s ∧
      ((mainAlsoInSourceTags video_tag = true ∧ initSourcesA video_tag = ([], [s])) ∨
       (mainAlsoInSourceTags video_tag = false ∧
        initSourcesA video_tag =
          ([{ src := s, type := some ((video_tag.attr "type").getD "video/mp4"),
              size := none }], [s])))) := by
  cases hm : mainVideoSrcA video_tag with
  | none =>
    left
    exact ⟨by simp only [initSourcesA, hm], rfl⟩
  | some s =>
    right
    refine ⟨s, rfl, ?_⟩
    cases hA : mainAlsoInSourceTags video_tag with
    | true =>
      left
      refine ⟨rfl, ?_⟩
      simp only [initSourcesA, hm, hA]
      simp
    | false =>
      right
      refine ⟨rfl, ?_⟩
      simp only [initSourcesA, hm, hA]
      simp [setAdd]

/-- C7 core for app.py: the collected `source_tags` URLs are pairwise
distinct. -/
theorem sourceTagsA_nodup (video_tag : Node) :
    ((sourceTagsA video_tag).map StreamSource.src).Nodup := by
  unfold sourceTagsA
  rcases initSourcesA_cases video_tag with ⟨h0, _⟩ | ⟨s, _, hcase⟩
  · rw [h0]
    exact streamFold_nodup _ _ _ [] [] (by simp) (by simp)
  · rcases hcase with ⟨_, h0⟩ | ⟨_, h0⟩
    · rw [h0]
      exact streamFold_nodup _ _ _ [] [s] (by simp) (by simp)
    · rw [h0]
      exact streamFold_nodup _ _ _ _ [s] (by simp) (by simp)

/-- C10 core: no collected source URL starts with `blob:`. -/
theorem sourceTagsA_no_blob (video_tag : Node) :
    ∀ t ∈ sourceTagsA video_tag, strStartsWith t.src "blob:" = false := by
  unfold sourceTagsA
  have hP : ∀ (el : Node) (u : String), u ≠ "" → notBlob u = true →
      strStartsWith u "blob:" = false := by
    intro el u _ hb
    unfold notBlob at hb
    simpa using hb
  rcases initSourcesA_cases video_tag with ⟨h0, _⟩ | ⟨s, hm, hcase⟩
  · rw [h0]
    exact streamFold_closure notBlob sourceMetaA
      (fun t => strStartsWith t.src "blob:" = false)
      (fun el u h1 h2 => hP el u h1 h2) _ [] [] (by simp)
  · have hs := mainVideoSrcA_spec video_tag s hm
    rcases hcase with ⟨_, h0⟩ | ⟨_, h0⟩
    · rw [h0]
      exact streamFold_closure notBlob sourceMetaA
        (fun t => strStartsWith t.src "blob:" = false)
        (fun el u h1 h2 => hP el u h1 h2) _ [] [s] (by simp)
    · rw [h0]
      apply streamFold_closure notBlob sourceMetaA
        (fun t => strStartsWith t.src "blob:" = false)
        (fun el u h1 h2 => hP el u h1 h2)
      intro t ht
      rw [List.mem_singleton.mp ht]
      exact hs.2

/-- C1 core for app.py: when `main_video_src` is set, it appears among the
collected `source_tags` iff no `<source>` child repeats it. -/
theorem sourceTagsA_main_iff (video_tag : Node) (u : String)
    (hm : mainVideoSrcA video_tag = some u) :
    ((∃ t ∈ sourceTagsA video_tag, t.src = u) ↔
      mainAlsoInSourceTags video_tag = false) := by
  unfold sourceTagsA
  rcases initSourcesA_cases video_tag with ⟨_, hnone⟩ | ⟨s, hm2, hcase⟩
  · rw [hnone] at hm; cases hm
  · rw [hm2] at hm
    injection hm with h
    subst h
    rcases hcase with ⟨hA, h0⟩ | ⟨hA, h0⟩
    · rw [h0]
      rw [streamFold_mem_iff _ _ s _ [] [s] (by simp)]
      simp [hA]
    · rw [h0]
      rw [streamFold_mem_iff _ _ s _ _ [s] (by simp)]
      simp [hA]

/-- C7 core for app1. -/
theorem sourceTags1_nodup (video_tag : Node) :
    ((sourceTags1 video_tag).map StreamSource.src).Nodup := by
  unfold sourceTags1
  exact streamFold_nodup _ _ _ [] _ (by simp) (by simp)

/-- C1 core for app1: a truthy `main_video_src` never reappears among the
collected `source_tags` (its URL is pre-seeded into the dedup set). -/
theorem sourceTags1_no_main (video_tag : Node) (u : String)
    (hmain : video_tag.attr "src" = some u) (hne : u ≠ "") :
    ∀ t ∈ sourceTags1 video_tag, t.src ≠ u := by
  unfold sourceTags1
  have hu : u ∈ foundSources1 video_tag := by
    unfold foundSources1
    rw [hmain]
    simp [hne]
  intro t ht hsrc
  have hmem := (streamFold_mem_iff _ _ u _ [] _ hu).mp ⟨t, ht, hsrc⟩
  simp at hmem

/-- What passes the app1 Video emission gate. -/
theorem gateVideoData_some {w v : VideoData} (h : gateVideoData w = some v) :
    sTruthy v.link = true ∨ sTruthy v.title = true := by
  unfold gateVideoData at h
  split at h
  · rename_i hc
    injection h with h
    subst h
    exact hc
  · cases h

/-- What passes the app.py pornstar emission gate. -/
theorem gatePornstarData_some {w v : PornstarData} (h : gatePornstarData w = some v) :
    v.name ≠ "" ∧ sTruthy v.link = true := by
  unfold gatePornstarData at h
  split at h
  · rename_i hc
    injection h with h
    subst h
    exact hc
  · cases h

/-! ## Claim theorems -/

/-- C2 (counterexample): on a page without a player element,
`scrape_video_stream_data` raises (an `HTTPException(404)`, modelled as
`Except.error`) instead of returning a descriptor, contradicting the claim
that the extraction "never throws" in this case. -/
theorem stream_no_player_raises_cex :
    scrape_video_stream_data "u" c2doc =
      Except.error "Video player tag not found on the page. Content may not be a video page or layout has changed." := by
  rfl

/-- C2 (amended): when no player element is found, the Flask extractor
`scrape_video_page_for_streams` returns a descriptor whose `error` field says
the player tag was not found and whose other fields are empty, while the
FastAPI extractor `scrape_video_stream_data` raises an HTTP 404 exception. -/
theorem stream_no_player_behavior (purl : String) (soup : Node)
    (h : findPlayerVideo soup = none) :
    scrape_video_page_for_streams purl soup =
      { video_page_url := purl, main_video_src := none, source_tags := [],
        poster_image := none, sprite_previews := [],
        error := some "Video player tag not found.", note := none } ∧
    scrape_video_stream_data purl soup =
      Except.error "Video player tag not found on the page. Content may not be a video page or layout has changed." := by
  constructor
  · unfold scrape_video_page_for_streams
    rw [h]
  · unfold scrape_video_stream_data
    rw [findPlayerVideo1_eq, h]

theorem stream_no_player_behavior_witness :
    scrape_video_page_for_streams "u" c2doc =
      { video_page_url := "u", main_video_src := none, source_tags := [],
        poster_image := none, sprite_previews := [],
        error := some "Video player tag not found.", note := none } ∧
    scrape_video_stream_data "u" c2doc =
      Except.error "Video player tag not found on the page. Content may not be a video page or layout has changed." :=
  stream_no_player_behavior "u" c2doc rfl

/-- C4: when the Video-kind listing container (`div#galleries.js-gallery-list`)
is absent, both listing extractors return the empty list (and, being total
functions, raise nothing). -/
theorem missing_container_yields_nil (soup : Node)
    (h : findFirst isGalleryListContainer soup = none) :
    scrape_hqporn_fresh_page soup = [] ∧ scrape_generic_video_list_page soup = [] := by
  constructor
  · unfold scrape_hqporn_fresh_page
    rw [h]
  · unfold scrape_generic_video_list_page
    rw [h]

theorem missing_container_yields_nil_witness :
    findFirst isGalleryListContainer c4doc = none ∧
    (scrape_hqporn_fresh_page c4doc = [] ∧ scrape_generic_video_list_page c4doc = []) :=
  ⟨rfl, missing_container_yields_nil c4doc rfl⟩

/-- C1 (counterexample): on a page whose video element has a direct `src` and
no `<source>` children, `scrape_video_stream_data` sets `main_video_src` but
leaves `source_tags` empty, so the sources list contains no element whose url
equals the primary source. -/
theorem stream_main_src_not_in_sources_cex :
    scrape_video_stream_data "u" c1doc =
      Except.ok { video_page_url := "u", main_video_src := some "https://cdn/x.mp4",
                  source_tags := [], poster_image := none, sprite_previews := [],
                  note := none } := by
  rfl

/-- C1 (amended): in `scrape_video_page_for_streams`, when `main_video_src`
is set it appears among the `source_tags` urls iff no `<source>` child of the
player element carries the same url (a duplicated url is dropped from both
places); in `scrape_video_stream_data`, a non-empty `main_video_src` never
appears among the `source_tags` urls at all. -/
theorem stream_main_src_in_sources_iff (purl u : String) (soup : Node) :
    ((scrape_video_page_for_streams purl soup).main_video_src = some u →
      ((∃ t ∈ (scrape_video_page_for_streams purl soup).source_tags, t.src = u) ↔
        ¬ ∃ el ∈ playerSourceEls soup, el.attr "src" = some u)) ∧
    (∀ d, scrape_video_stream_data purl soup = Except.ok d →
      d.main_video_src = some u → u ≠ "" → ∀ t ∈ d.source_tags, t.src ≠ u) := by
  constructor
  · intro hm
    cases hv : findPlayerVideo soup with
    | none =>
      rw [scrape_streams_none purl soup hv] at hm
      simp at hm
    | some video_tag =>
      rw [scrape_streams_some purl soup video_tag hv] at hm ⊢
      have hm' : mainVideoSrcA video_tag = some u := hm
      have hiff := sourceTagsA_main_iff video_tag u hm'
      have hsrc : (scrape_video_page_for_streams purl soup).source_tags
          = sourceTagsA video_tag := by
        rw [scrape_streams_some purl soup video_tag hv]
      show (∃ t ∈ sourceTagsA video_tag, t.src = u) ↔ _
      rw [hiff]
      unfold mainAlsoInSourceTags playerSourceEls
      rw [hv, hm']
      constructor
      · intro hfalse hex
        rcases hex with ⟨el, hel, heq⟩
        have : (findAll (isTag "source") video_tag).any
            (fun source_el => source_el.attr "src" == some u) = true := by
          rw [List.any_eq_true]
          exact ⟨el, hel, by simp [heq]⟩
        rw [hfalse] at this
        cases this
      · intro hnex
        rw [← Bool.not_eq_true]
        intro hany
        rcases List.any_eq_true.mp hany with ⟨el, hel, heq⟩
        exact hnex ⟨el, hel, by simpa using heq⟩
  · intro d hd hmain hne
    cases hv : findPlayerVideo1 soup with
    | none =>
      rw [scrape_stream1_none purl soup hv] at hd
      cases hd
    | some video_tag =>
      rw [scrape_stream1_some purl soup video_tag hv] at hd
      injection hd with hd
      subst hd
      exact sourceTags1_no_main video_tag u hmain hne

theorem stream_main_src_in_sources_iff_witness :
    ((∃ t ∈ (scrape_video_page_for_streams "u" c1wdoc).source_tags, t.src = "x") ↔
      ¬ ∃ el ∈ playerSourceEls c1wdoc, el.attr "src" = some "x") ∧
    ({ src := "y", type := some "video/mp4", size := none } : StreamSource).src ≠ "x" := by
  constructor
  · exact (stream_main_src_in_sources_iff "u" "x" c1wdoc).1 rfl
  · exact (stream_main_src_in_sources_iff "u" "x" c1wdoc).2 c1data rfl rfl (by decide)
      { src := "y", type := some "video/mp4", size := none } (by decide)

/-- C7: in both stream extractors, no two elements of the produced
`source_tags` list carry the same `src` url. -/
theorem source_tags_nodup (purl : String) (soup : Node) :
    ((scrape_video_page_for_streams purl soup).source_tags.map StreamSource.src).Nodup ∧
    (∀ d, scrape_video_stream_data purl soup = Except.ok d →
      (d.source_tags.map StreamSource.src).Nodup) := by
  constructor
  · cases hv : findPlayerVideo soup with
    | none =>
      rw [scrape_streams_none purl soup hv]
      simp
    | some video_tag =>
      rw [scrape_streams_some purl soup video_tag hv]
      exact sourceTagsA_nodup video_tag
  · intro d hd
    cases hv : findPlayerVideo1 soup with
    | none =>
      rw [scrape_stream1_none purl soup hv] at hd
      cases hd
    | some video_tag =>
      rw [scrape_stream1_some purl soup video_tag hv] at hd
      injection hd with hd
      subst hd
      exact sourceTags1_nodup video_tag

theorem source_tags_nodup_witness :
    ((scrape_video_page_for_streams "u" c7wdoc).source_tags.map StreamSource.src).Nodup ∧
    ((c7data.source_tags.map StreamSource.src).Nodup) :=
  ⟨(source_tags_nodup "u" c7wdoc).1, (source_tags_nodup "u" c7wdoc).2 c7data rfl⟩

/-- C9: in both stream extractors, when the player element carries a
`data-preview` attribute, the produced `sprite_previews` list is exactly the
attribute value split on commas, each segment whitespace-trimmed, empty
segments dropped, in order (`spritePreviewSpec`, worded from the spec). -/
theorem sprite_previews_follow_spec (purl v : String) (soup video_tag : Node)
    (hA : findPlayerVideo soup = some video_tag)
    (hv : video_tag.attr "data-preview" = some v) :
    (scrape_video_page_for_streams purl soup).sprite_previews = spritePreviewSpec v ∧
    (∀ d, scrape_video_stream_data purl soup = Except.ok d →
      d.sprite_previews = spritePreviewSpec v) := by
  have hsp : spritePreviewsOf video_tag = spritePreviewSpec v := by
    unfold spritePreviewsOf spritePreviewSpec
    rw [hv]
  constructor
  · rw [scrape_streams_some purl soup video_tag hA]
    exact hsp
  · intro d hd
    have hA1 : findPlayerVideo1 soup = some video_tag := by
      rw [findPlayerVideo1_eq]
      exact hA
    rw [scrape_stream1_some purl soup video_tag hA1] at hd
    injection hd with hd
    subst hd
    exact hsp

theorem sprite_previews_follow_spec_witness :
    (scrape_video_page_for_streams "u" c9doc).sprite_previews = spritePreviewSpec "a, b,,c " ∧
    c9data.sprite_previews = spritePreviewSpec "a, b,,c " := by
  constructor
  · exact (sprite_previews_follow_spec "u" "a, b,,c " c9doc c9video rfl rfl).1
  · exact (sprite_previews_follow_spec "u" "a, b,,c " c9doc c9video rfl rfl).2 c9data rfl

/-- C10: `scrape_video_page_for_streams` never emits a url beginning with
`blob:`, neither as `main_video_src` nor as the `src` of any `source_tags`
element. -/
theorem no_blob_urls (purl : String) (soup : Node) :
    (∀ s, (scrape_video_page_for_streams purl soup).main_video_src = some s →
      strStartsWith s "blob:" = false) ∧
    (∀ t ∈ (scrape_video_page_for_streams purl soup).source_tags,
      strStartsWith t.src "blob:" = false) := by
  cases hv : findPlayerVideo soup with
  | none =>
    rw [scrape_streams_none purl soup hv]
    constructor
    · intro s h
      simp at h
    · intro t ht
      simp at ht
  | some video_tag =>
    rw [scrape_streams_some purl soup video_tag hv]
    constructor
    · intro s h
      exact (mainVideoSrcA_spec video_tag s h).2
    · exact sourceTagsA_no_blob video_tag

theorem no_blob_urls_witness :
    strStartsWith "https://ok.mp4" "blob:" = false ∧
    strStartsWith ({ src := "https://b.mp4", type := none, size := none } : StreamSource).src
      "blob:" = false := by
  constructor
  · exact (no_blob_urls "u" c10doc).1 "https://ok.mp4" rfl
  · exact (no_blob_urls "u" c10doc).2
      { src := "https://b.mp4", type := none, size := none } (by decide)

/-- C3 (counterexample): `scrape_generic_page_videos` resolves an item href
that is neither absolute nor '/'-prefixed ("video.html") by prepending the
origin, whereas the claim says such an href is returned unchanged. -/
theorem resolve_generic_not_identity_cex :
    scrape_generic_page_videos c3doc =
      [{ duration := "N/A", gallery_id := "Unknown",
         image_urls := { img_src := "", jpeg := "", webp := "" },
         link := "https://hqporn.xxxvideo.html", preview_video_url := "",
         tags := [], thumb_id := "Unknown", title := "Unknown",
         title_attribute := "Unknown" }] ∧
    strStartsWith "video.html" "/" = false ∧
    ("https://hqporn.xxxvideo.html" : String) ≠ "video.html" := by
  exact ⟨rfl, rfl, by decide⟩

/-- C3 (amended): the resolver used by `scrape_hqporn_fresh_page` and
`scrape_generic_video_list_page` follows the claimed rule for absent and
non-empty inputs but maps an empty href to an empty (not absent) link, while
the resolver used by `scrape_generic_page_videos` follows a different rule:
an href starting with "http" is kept, any other non-empty href gets the
origin prepended (even without a '/'), and an empty href yields "". -/
theorem resolve_href_characterization (s : String) :
    resolveHref none = none ∧
    resolveHref (some "") = some "" ∧
    (s ≠ "" → resolveHref (some s) = resolveSpec (some s) BASE_URL) ∧
    (strStartsWith s "http" = true → resolveGenericHref s = s) ∧
    (s ≠ "" → strStartsWith s "http" = false → resolveGenericHref s = BASE_URL ++ s) ∧
    resolveGenericHref "" = "" := by
  refine ⟨rfl, rfl, ?_, ?_, ?_, rfl⟩
  · intro hne
    by_cases hsl : strStartsWith s "/" = true
    · simp [resolveHref, resolveSpec, hne, hsl]
    · simp [resolveHref, resolveSpec, hne, hsl]
  · intro hh
    unfold resolveGenericHref
    rw [if_pos hh]
  · intro hne hh
    simp [resolveGenericHref, hh, hne]

theorem resolve_href_characterization_witness :
    resolveGenericHref "video.html" = BASE_URL ++ "video.html" :=
  ((resolve_href_characterization "video.html").2.2.2.2.1) (by decide) (by decide)

/-- C5 (counterexample): `scrape_hqporn_fresh_page` emits an item record with
an absent link and an absent title (the anchor element is present but has no
href/title attributes), contradicting the claimed "non-empty pageUrl or
non-empty title" gate. -/
theorem fresh_emits_empty_item_cex :
    scrape_hqporn_fresh_page c5doc =
      [{ duration := none, gallery_id := none,
         image_urls := { img_src := none, jpeg := none, webp := none },
         link := none, preview_video_url := none, tags := [], thumb_id := none,
         title := none, title_attribute := none }] := by
  rfl

/-- C5 (amended): `scrape_hqporn_fresh_page` emits an item iff the
`js-gallery-link` anchor is present, regardless of field emptiness;
`scrape_generic_video_list_page` emits only items whose extracted link or
title is non-empty; `scrape_hqporn_pornstars_page` emits only items with a
non-empty name and a non-empty link. -/
theorem validity_gate_characterization :
    (∀ item : Node, (freshItem item).isSome =
      (findFirst (isAnchorWithClass "js-gallery-link") item).isSome) ∧
    (∀ item : Node, ∀ v : VideoData, genericListItem item = some v →
      sTruthy v.link = true ∨ sTruthy v.title = true) ∧
    (∀ item : Node, ∀ v : PornstarData, pornstarItem item = some v →
      v.name ≠ "" ∧ sTruthy v.link = true) := by
  refine ⟨?_, ?_, ?_⟩
  · intro item
    unfold freshItem
    cases findFirst (isAnchorWithClass "js-gallery-link") item <;> rfl
  · intro item v h
    unfold genericListItem at h
    by_cases hr : "random-thumb" ∈ item.classes
    · rw [if_pos hr] at h
      cases h
    · rw [if_neg hr] at h
      exact gateVideoData_some h
  · intro item v h
    cases hf : findFirst (isAnchorWithClass "js-pornstar-stats") item with
    | none =>
      simp only [pornstarItem, hf] at h
      cases h
    | some link_tag =>
      simp only [pornstarItem, hf] at h
      exact gatePornstarData_some h

theorem validity_gate_characterization_witness :
    (sTruthy c5wvideo.link = true ∨ sTruthy c5wvideo.title = true) ∧
    (c5wstar.name ≠ "" ∧ sTruthy c5wstar.link = true) :=
  ⟨validity_gate_characterization.2.1 c5witem c5wvideo (by decide),
   validity_gate_characterization.2.2 c5wstaritem c5wstar (by decide)⟩

/-- C6 (counterexample): `scrape_hqporn_fresh_page` has no random/ad filter:
an item whose class list includes "random-thumb" appears in the output. -/
theorem fresh_random_thumb_emitted_cex :
    "random-thumb" ∈ c6item.classes ∧
    scrape_hqporn_fresh_page c6doc =
      [{ duration := none, gallery_id := none,
         image_urls := { img_src := none, jpeg := none, webp := none },
         link := some "https://hqporn.xxx/v/x.html", preview_video_url := none,
         tags := [], thumb_id := none, title := some "Ad",
         title_attribute := some "Ad" }] := by
  exact ⟨by decide, rfl⟩

/-- C6 (amended): the random/ad marker is honoured by
`scrape_generic_page_videos` and `scrape_generic_video_list_page`, which drop
such items before field extraction; `scrape_hqporn_fresh_page` does not
filter them. -/
theorem random_thumb_filtered (item : Node) (h : "random-thumb" ∈ item.classes) :
    genericItem item = none ∧ genericListItem item = none := by
  constructor
  · unfold genericItem
    rw [if_pos h]
  · unfold genericListItem
    rw [if_pos h]

theorem random_thumb_filtered_witness :
    genericItem c6witem = none ∧ genericListItem c6witem = none :=
  random_thumb_filtered c6witem (by decide)

/-- C8 (counterexample): `scrape_generic_page_videos` produces an ImageSet
record with all three fields equal to the empty string when the item has no
picture/img markup, contradicting the claimed "absent or non-empty"
invariant. -/
theorem image_fields_empty_string_cex :
    scrape_generic_page_videos c8doc =
      [{ duration := "N/A", gallery_id := "Unknown",
         image_urls := { img_src := "", jpeg := "", webp := "" },
         link := "https://hqporn.xxx/v/y.html", preview_video_url := "",
         tags := [], thumb_id := "Unknown", title := "Unknown",
         title_attribute := "Clip" }] := by
  rfl

/-- C8 (amended): app1's `extract_image_urls` returns absent fields when no
picture markup exists, but app.py's `scrape_generic_page_videos` represents
missing image data as empty strings (its record fields are non-optional). -/
theorem image_urls_absent_when_missing (item : Node)
    (hp : findFirst (isTag "picture") item = none) :
    extract_image_urls item = { img_src := none, jpeg := none, webp := none } ∧
    (findFirst (isTag "img") item = none →
      genericImageTriple item = ("", "", "")) := by
  have hpc : findFirst (isPictureWithClass "js-gallery-img") item = none := by
    refine findFirst_none_of_imp ?_ item hp
    intro m hq
    simp only [isPictureWithClass, Bool.and_eq_true] at hq
    exact hq.1
  constructor
  · unfold extract_image_urls
    rw [hpc, hp]
  · intro hi
    unfold genericImageTriple
    rw [hpc, hi]
    rfl

theorem image_urls_absent_when_missing_witness :
    extract_image_urls c8witem = { img_src := none, jpeg := none, webp := none } ∧
    (findFirst (isTag "img") c8witem = none → genericImageTriple c8witem = ("", "", "")) :=
  image_urls_absent_when_missing c8witem rfl

end LApi
